import Mathlib

/-!
Verification development for the Movie-Script-Vector-Similarity repository.

The repository's `app.py` wires a Flask boundary around three pieces of core
logic: precomputed pairwise similarity matrices over script embeddings
(`vector_search.calculate_all_similarity_pairs`), a nearest-neighbor query
over those matrices (`vector_search.return_matches`), and a genre-focused 2D
projection view (`make_umap_plots.genre_scatter_plot`).  The `vector_search`
and `make_umap_plots` modules are not part of the available sources, so those
operations are modelled from the specification (each such definition says so
in its doc comment).  Embedding scalars are modelled as integers, with exact
rational arithmetic where the code divides; the cosine and Pearson scores are
represented by their signed squares (an order-isomorphic reparametrization
that stays inside exact rational arithmetic).
-/

namespace MovieSim

/-- Modelled from the spec: the dot product `embedding_a · embedding_b`
(`Dotproduct(a,b)` in §3), computed pairwise over the common length. -/
def dot : List ℤ → List ℤ → ℤ
  | x :: xs, y :: ys => x * y + dot xs ys
  | _, _ => 0

/-- Squared Euclidean norm of an embedding, `dot u u`. -/
def normSq (u : List ℤ) : ℤ := dot u u

/-- Modelled from the spec: `Distance(a,b)`, "a dissimilarity score
monotonically related to Euclidean distance" (§3); modelled as the squared
Euclidean distance, which is exactly such a monotone companion. -/
def distSq : List ℤ → List ℤ → ℤ
  | x :: xs, y :: ys => (x - y) * (x - y) + distSq xs ys
  | _, _ => 0

/-- Modelled from the spec: `Cosine(a,b) = Dotproduct(a,b) / (‖a‖·‖b‖)` with
the zero-norm guard of §4.1 returning the deterministic fallback `0`.  To stay
in exact rational arithmetic the score is represented by its signed square
`cos·|cos|`, a strictly increasing reparametrization of the cosine that keeps
its sign, its self-value `1`, and every sort order. -/
def cosQ (u v : List ℤ) : ℚ :=
  if normSq u = 0 ∨ normSq v = 0 then 0
  else ((dot u v * |dot u v| : ℤ) : ℚ) / ((normSq u * normSq v : ℤ) : ℚ)

/-- The three precomputed similarity matrices, indexed by item row index:
`{"Distance": ..., "Dotproduct": ..., "Cosine": ...}` in `app.py`. -/
structure SimilarityPairs where
  Distance : ℕ → ℕ → ℚ
  Dotproduct : ℕ → ℕ → ℚ
  Cosine : ℕ → ℕ → ℚ

/-- Modelled from the spec: `vector_search.calculate_all_similarity_pairs`
(called at `app.py` lines 25-26), the Similarity Engine's
`precompute(embeddings)` of §4.1: all pairwise scores for the three metrics.
Out-of-range indices read the empty embedding. -/
def calculate_all_similarity_pairs (embs : List (List ℤ)) : SimilarityPairs where
  Distance := fun i j => ((distSq (embs.getD i []) (embs.getD j []) : ℤ) : ℚ)
  Dotproduct := fun i j => ((dot (embs.getD i []) (embs.getD j []) : ℤ) : ℚ)
  Cosine := fun i j => cosQ (embs.getD i []) (embs.getD j [])

theorem dot_comm (u v : List ℤ) : dot u v = dot v u := by
  induction u generalizing v with
  | nil => cases v <;> simp [dot]
  | cons x xs ih =>
    cases v with
    | nil => simp [dot]
    | cons y ys => simp [dot, ih, mul_comm]

theorem dot_self_nonneg (u : List ℤ) : 0 ≤ dot u u := by
  induction u with
  | nil => simp [dot]
  | cons x xs ih => simpa [dot] using add_nonneg (mul_self_nonneg x) ih

theorem distSq_comm (u v : List ℤ) : distSq u v = distSq v u := by
  induction u generalizing v with
  | nil => cases v <;> simp [distSq]
  | cons x xs ih =>
    cases v with
    | nil => simp [distSq]
    | cons y ys =>
      simp only [distSq, ih]
      ring

theorem distSq_self (u : List ℤ) : distSq u u = 0 := by
  induction u with
  | nil => simp [distSq]
  | cons x xs ih => simp [distSq, ih]

theorem cosQ_comm (u v : List ℤ) : cosQ u v = cosQ v u := by
  unfold cosQ
  by_cases h : normSq u = 0 ∨ normSq v = 0
  · rw [if_pos h, if_pos (Or.symm h)]
  · rw [if_neg h, if_neg (fun hc => h (Or.symm hc))]
    rw [dot_comm v u, mul_comm (normSq v) (normSq u)]

theorem cosQ_self (u : List ℤ) (h : normSq u ≠ 0) : cosQ u u = 1 := by
  unfold cosQ
  rw [if_neg (by tauto)]
  have hd : dot u u = normSq u := rfl
  rw [hd, abs_of_nonneg (by simpa [normSq] using dot_self_nonneg u)]
  rw [div_self]
  exact_mod_cast mul_ne_zero h h

/-- C3: each of the three precomputed similarity matrices is symmetric:
for every pair of row indices `(a, b)`, `Distance(a,b) = Distance(b,a)`,
`Dotproduct(a,b) = Dotproduct(b,a)`, and `Cosine(a,b) = Cosine(b,a)`. -/
theorem similarity_matrices_symmetric (embs : List (List ℤ)) (a b : ℕ) :
    (calculate_all_similarity_pairs embs).Distance a b
        = (calculate_all_similarity_pairs embs).Distance b a ∧
    (calculate_all_similarity_pairs embs).Dotproduct a b
        = (calculate_all_similarity_pairs embs).Dotproduct b a ∧
    (calculate_all_similarity_pairs embs).Cosine a b
        = (calculate_all_similarity_pairs embs).Cosine b a := by
  refine ⟨?_, ?_, ?_⟩
  · simp [calculate_all_similarity_pairs, distSq_comm]
  · simp [calculate_all_similarity_pairs, dot_comm]
  · simp [calculate_all_similarity_pairs, cosQ_comm]

/-- C4 counterexample: with the single zero embedding `[[0]]`, the diagonal
cosine entry is the zero-norm fallback `0`, not `1`, so the unrestricted
claim `Distance(a,a) = 0 ∧ Cosine(a,a) = 1` fails at item `0`. -/
theorem self_similarity_fails_on_zero_embedding :
    ¬ ((calculate_all_similarity_pairs [[(0 : ℤ)]]).Distance 0 0 = 0 ∧
       (calculate_all_similarity_pairs [[(0 : ℤ)]]).Cosine 0 0 = 1) := by
  decide

/-- C4 (amended): for every item whose embedding has nonzero norm,
`Distance(a,a) = 0` and `Cosine(a,a) = 1` exactly. -/
theorem self_similarity (embs : List (List ℤ)) (a : ℕ)
    (h : normSq (embs.getD a []) ≠ 0) :
    (calculate_all_similarity_pairs embs).Distance a a = 0 ∧
    (calculate_all_similarity_pairs embs).Cosine a a = 1 := by
  constructor
  · simp [calculate_all_similarity_pairs, distSq_self]
  · simpa [calculate_all_similarity_pairs] using cosQ_self _ h

/-- Witness for C4 (amended) at the one-item dataset `[[1, 2]]`. -/
theorem self_similarity_witness :
    (calculate_all_similarity_pairs [[(1 : ℤ), 2]]).Distance 0 0 = 0 ∧
    (calculate_all_similarity_pairs [[(1 : ℤ), 2]]).Cosine 0 0 = 1 :=
  self_similarity [[(1 : ℤ), 2]] 0 (by decide)

/-- C5: whenever either embedding of a pair has zero (squared) norm, the
precomputed cosine entry is the deterministic fallback value `0` — never an
undefined or NaN score. -/
theorem cosine_zero_norm_fallback (embs : List (List ℤ)) (a b : ℕ)
    (h : normSq (embs.getD a []) = 0 ∨ normSq (embs.getD b []) = 0) :
    (calculate_all_similarity_pairs embs).Cosine a b = 0 := by
  simp only [calculate_all_similarity_pairs]
  unfold cosQ
  rw [if_pos h]

/-- Witness for C5 at the dataset `[[0], [1]]`, pairing the zero embedding
with a nonzero one. -/
theorem cosine_zero_norm_fallback_witness :
    (calculate_all_similarity_pairs [[(0 : ℤ)], [1]]).Cosine 0 1 = 0 :=
  cosine_zero_norm_fallback [[(0 : ℤ)], [1]] 0 1 (by decide)

/-- Stable insertion of one element into a list under a Bool-valued
comparison; the backbone of the stable sort required by §4.2. -/
def insertLe {α : Type} (le : α → α → Bool) (a : α) : List α → List α
  | [] => [a]
  | b :: bs => if le a b then a :: b :: bs else b :: insertLe le a bs

/-- Stable insertion sort under a Bool-valued comparison; ties keep their
original relative order, the stable secondary key of §4.2. -/
def sortLe {α : Type} (le : α → α → Bool) : List α → List α
  | [] => []
  | a :: as => insertLe le a (sortLe le as)

theorem perm_insertLe {α : Type} (le : α → α → Bool) (a : α) (l : List α) :
    List.Perm (insertLe le a l) (a :: l) := by
  induction l with
  | nil => exact List.Perm.refl _
  | cons b bs ih =>
    by_cases h : le a b
    · rw [insertLe, if_pos h]
    · rw [insertLe, if_neg h]
      exact (ih.cons b).trans (List.Perm.swap a b bs)

theorem perm_sortLe {α : Type} (le : α → α → Bool) (l : List α) :
    List.Perm (sortLe le l) l := by
  induction l with
  | nil => exact List.Perm.refl _
  | cons a as ih => exact (perm_insertLe le a (sortLe le as)).trans (ih.cons a)

theorem pairwise_insertLe {α : Type} (le : α → α → Bool)
    (htr : ∀ a b c, le a b = true → le b c = true → le a c = true)
    (hto : ∀ a b, (le a b || le b a) = true)
    (a : α) (l : List α) (h : l.Pairwise (fun x y => le x y = true)) :
    (insertLe le a l).Pairwise (fun x y => le x y = true) := by
  induction l with
  | nil => simp [insertLe]
  | cons b bs ih =>
    rcases List.pairwise_cons.mp h with ⟨hb, hbs⟩
    by_cases hab : le a b = true
    · rw [insertLe, if_pos hab]
      refine List.pairwise_cons.mpr ⟨?_, h⟩
      intro x hx
      rcases List.mem_cons.mp hx with rfl | hx
      · exact hab
      · exact htr a b x hab (hb x hx)
    · rw [insertLe, if_neg hab]
      have hba : le b a = true := by
        rcases Bool.or_eq_true_iff.mp (hto a b) with h1 | h1
        · exact absurd h1 hab
        · exact h1
      refine List.pairwise_cons.mpr ⟨?_, ih hbs⟩
      intro x hx
      rcases List.mem_cons.mp ((perm_insertLe le a bs).mem_iff.mp hx) with rfl | hx
      · exact hba
      · exact hb x hx

theorem pairwise_sortLe {α : Type} (le : α → α → Bool)
    (htr : ∀ a b c, le a b = true → le b c = true → le a c = true)
    (hto : ∀ a b, (le a b || le b a) = true) (l : List α) :
    (sortLe le l).Pairwise (fun x y => le x y = true) := by
  induction l with
  | nil => simp [sortLe]
  | cons a as ih => exact pairwise_insertLe le htr hto a (sortLe le as) ih

/-- One row of the movie dataset as loaded in `app.py` lines 13-18:
`index`, `movie_title`, `genre` (comma-delimited labels), `script_length`,
`year`. -/
structure Item where
  index : ℕ
  movie_title : String
  genre : String
  script_length : ℕ
  year : ℤ
deriving DecidableEq

/-- The three ranking metrics of the Similarity Engine. -/
inductive MetricName
  | Distance
  | Dotproduct
  | Cosine
deriving DecidableEq

/-- One row of the neighbor query result: metric scores joined with the
candidate's metadata (§3, Neighbor Record). -/
structure NeighborRecord where
  id : ℕ
  title : String
  Distance : ℚ
  Dotproduct : ℚ
  Cosine : ℚ
deriving DecidableEq

/-- Sort order for neighbor records under a ranking metric: ascending in
`Distance` (closer = smaller), descending in `Dotproduct` and `Cosine`
(more similar = larger), per §4.2. -/
def metricLe (rank : MetricName) (a b : NeighborRecord) : Bool :=
  match rank with
  | .Distance => a.Distance ≤ b.Distance
  | .Dotproduct => b.Dotproduct ≤ a.Dotproduct
  | .Cosine => b.Cosine ≤ a.Cosine

/-- Error raised by the Neighbor Query Service (§4.2, §7). -/
inductive QueryError
  | ItemNotFound
deriving DecidableEq

/-- The neighbor record for candidate `o` relative to query row `qid`,
pulling each metric from the precomputed matrices. -/
def mkRecord (sims : SimilarityPairs) (qid : ℕ) (o : Item) : NeighborRecord where
  id := o.index
  title := o.movie_title
  Distance := sims.Distance qid o.index
  Dotproduct := sims.Dotproduct qid o.index
  Cosine := sims.Cosine qid o.index

/-- Modelled from the spec: `vector_search.return_matches` (called at
`app.py` lines 92-97), the Neighbor Query Service `query` of §4.2: resolve
the title, build one record per other item from the precomputed matrices,
and stable-sort by the ranking metric; `ItemNotFound` when the title does
not resolve. -/
def return_matches (title : String) (sims : SimilarityPairs)
    (items : List Item) (rank : MetricName) :
    Except QueryError (List NeighborRecord) :=
  match items.find? (fun it => it.movie_title == title) with
  | none => .error .ItemNotFound
  | some q =>
      .ok (sortLe (metricLe rank)
        ((items.filter (fun o => o.index != q.index)).map (mkRecord sims q.index)))

/-- A concrete three-movie dataset used by the witnesses. -/
def demoItemA : Item := ⟨0, "A", "Action,Drama", 100, 1999⟩

/-- The demo dataset: three movies with distinct indices and titles. -/
def demoItems : List Item :=
  [demoItemA, ⟨1, "B", "Comedy", 200, 2001⟩, ⟨2, "C", "Drama", 150, 2005⟩]

/-- Concrete similarity matrices used by the witnesses. -/
def demoSims : SimilarityPairs where
  Distance := fun i j =>
    if i = j then 0 else if i + j = 1 then 2 else if i + j = 2 then 1 else 3
  Dotproduct := fun i j =>
    if i = j then 4 else if i + j = 1 then 0 else if i + j = 2 then 1 else 2
  Cosine := fun i j => if i = j then 1 else 0

theorem metricLe_trans (rank : MetricName) (a b c : NeighborRecord)
    (h1 : metricLe rank a b = true) (h2 : metricLe rank b c = true) :
    metricLe rank a c = true := by
  cases rank <;>
    simp only [metricLe, decide_eq_true_eq] at h1 h2 ⊢ <;>
    first
    | exact le_trans h1 h2
    | exact le_trans h2 h1

theorem metricLe_total (rank : MetricName) (a b : NeighborRecord) :
    (metricLe rank a b || metricLe rank b a) = true := by
  cases rank <;>
    simp only [metricLe, Bool.or_eq_true_iff, decide_eq_true_eq] <;>
    exact le_total _ _

/-- C1: the neighbor query returns records sorted by the ranking metric —
non-decreasing in `Distance` for `rank_metric = Distance`, non-increasing in
the metric for `Dotproduct` and `Cosine`. -/
theorem return_matches_sorted (title : String) (sims : SimilarityPairs)
    (items : List Item) (rank : MetricName) (l : List NeighborRecord)
    (h : return_matches title sims items rank = .ok l) :
    (rank = .Distance → l.Pairwise fun a b => a.Distance ≤ b.Distance) ∧
    (rank = .Dotproduct → l.Pairwise fun a b => b.Dotproduct ≤ a.Dotproduct) ∧
    (rank = .Cosine → l.Pairwise fun a b => b.Cosine ≤ a.Cosine) := by
  unfold return_matches at h
  cases hf : items.find? (fun it => it.movie_title == title) with
  | none => rw [hf] at h; simp at h
  | some q =>
    rw [hf] at h
    simp only [Except.ok.injEq] at h
    subst h
    have hp := pairwise_sortLe (metricLe rank) (metricLe_trans rank)
      (metricLe_total rank)
      ((items.filter (fun o => o.index != q.index)).map (mkRecord sims q.index))
    refine ⟨?_, ?_, ?_⟩ <;> rintro rfl <;>
      exact hp.imp (by
        intro a b hab
        simpa only [metricLe, decide_eq_true_eq] using hab)

/-- Witness for C1: a concrete three-movie dataset queried at "A" and ranked
by `Distance`. -/
theorem return_matches_sorted_witness :
    ((return_matches "A" demoSims demoItems MetricName.Distance).toOption.getD
        []).Pairwise (fun a b => a.Distance ≤ b.Distance) := by
  have h : return_matches "A" demoSims demoItems MetricName.Distance
      = Except.ok ((return_matches "A" demoSims demoItems
          MetricName.Distance).toOption.getD []) := rfl
  exact (return_matches_sorted "A" demoSims demoItems MetricName.Distance _ h).1
    rfl

theorem filter_ne_index_length (items : List Item) (q : Item) (hq : q ∈ items)
    (hnd : (items.map Item.index).Nodup) :
    (items.filter (fun o => o.index != q.index)).length = items.length - 1 := by
  induction items with
  | nil => cases hq
  | cons a rest ih =>
    rw [List.map_cons, List.nodup_cons] at hnd
    obtain ⟨ha, hnd'⟩ := hnd
    rcases List.mem_cons.mp hq with rfl | hq'
    · have hall : ∀ o ∈ rest, (o.index != q.index) = true := by
        intro o ho
        exact bne_iff_ne.mpr fun he => ha (he ▸ List.mem_map_of_mem Item.index ho)
      simp only [List.filter_cons, bne_self_eq_false, List.filter_eq_self.mpr hall]
      simp
    · have hne : a.index ≠ q.index :=
        fun he => ha (he ▸ List.mem_map_of_mem Item.index hq')
      have hpos : 0 < rest.length := List.length_pos.mpr (List.ne_nil_of_mem hq')
      have hb : (a.index != q.index) = true := bne_iff_ne.mpr hne
      simp only [List.filter_cons, hb, if_true, List.length_cons, ih hq' hnd']
      omega

/-- C2: when the title resolves, the neighbor query returns exactly `n - 1`
records (given the dataset's unique-`index` invariant) and none of the
returned records is the query item itself. -/
theorem return_matches_complete (title : String) (sims : SimilarityPairs)
    (items : List Item) (rank : MetricName) (q : Item) (l : List NeighborRecord)
    (hq : items.find? (fun it => it.movie_title == title) = some q)
    (hnd : (items.map Item.index).Nodup)
    (h : return_matches title sims items rank = .ok l) :
    l.length = items.length - 1 ∧ ∀ r ∈ l, r.id ≠ q.index := by
  unfold return_matches at h
  rw [hq] at h
  simp only [Except.ok.injEq] at h
  subst h
  constructor
  · rw [(perm_sortLe _ _).length_eq, List.length_map]
    exact filter_ne_index_length items q (List.mem_of_find?_eq_some hq) hnd
  · intro r hr
    obtain ⟨o, ho, rfl⟩ := List.mem_map.mp ((perm_sortLe _ _).mem_iff.mp hr)
    have hne := bne_iff_ne.mp (List.mem_filter.mp ho).2
    simpa [mkRecord] using hne

/-- Witness for C2 at the three-movie demo dataset, query "A". -/
theorem return_matches_complete_witness :
    ((return_matches "A" demoSims demoItems MetricName.Distance).toOption.getD
        []).length = demoItems.length - 1 ∧
    ∀ r ∈ (return_matches "A" demoSims demoItems
        MetricName.Distance).toOption.getD [],
      r.id ≠ demoItemA.index := by
  have hq : demoItems.find? (fun it => it.movie_title == "A") = some demoItemA :=
    rfl
  have h : return_matches "A" demoSims demoItems MetricName.Distance
      = Except.ok ((return_matches "A" demoSims demoItems
          MetricName.Distance).toOption.getD []) := rfl
  exact return_matches_complete "A" demoSims demoItems MetricName.Distance
    demoItemA _ hq (by decide) h

/-- C9: the similarity precomputation and the neighbor query are pure —
two invocations on equal inputs produce equal matrices and equal ordered
result sequences. -/
theorem similarity_query_deterministic (embs1 embs2 : List (List ℤ))
    (items1 items2 : List Item) (title : String) (rank : MetricName)
    (he : embs1 = embs2) (hi : items1 = items2) :
    calculate_all_similarity_pairs embs1 = calculate_all_similarity_pairs embs2 ∧
    return_matches title (calculate_all_similarity_pairs embs1) items1 rank
      = return_matches title (calculate_all_similarity_pairs embs2) items2 rank := by
  subst he
  subst hi
  exact ⟨rfl, rfl⟩

/-- Witness for C9 at a concrete embedding set and the demo dataset. -/
theorem similarity_query_deterministic_witness :
    calculate_all_similarity_pairs [[(1 : ℤ), 0], [0, 1]]
        = calculate_all_similarity_pairs [[(1 : ℤ), 0], [0, 1]] ∧
    return_matches "A" (calculate_all_similarity_pairs [[(1 : ℤ), 0], [0, 1]])
        demoItems MetricName.Cosine
      = return_matches "A" (calculate_all_similarity_pairs [[(1 : ℤ), 0], [0, 1]])
        demoItems MetricName.Cosine :=
  similarity_query_deterministic _ _ _ _ "A" MetricName.Cosine rfl rfl

/-- Arithmetic mean of a column. -/
def mean (xs : List ℚ) : ℚ := xs.sum / xs.length

/-- Centered cross-product sum of two columns, the numerator kernel of the
Pearson correlation. -/
def covSum (xs ys : List ℚ) : ℚ :=
  (List.zipWith (fun a b => (a - mean xs) * (b - mean ys)) xs ys).sum

/-- Pearson correlation of two columns, represented by its signed square
`r·|r|` (an order- and sign-preserving reparametrization that stays in exact
rational arithmetic), with fallback `0` when either column has zero
variance. -/
def pearsonQ (xs ys : List ℚ) : ℚ :=
  if covSum xs xs = 0 ∨ covSum ys ys = 0 then 0
  else covSum xs ys * |covSum xs ys| / (covSum xs xs * covSum ys ys)

/-- The column of one metric over a neighbor-record sequence. -/
def metricColumn (m : MetricName) (l : List NeighborRecord) : List ℚ :=
  l.map fun r =>
    match m with
    | .Distance => r.Distance
    | .Dotproduct => r.Dotproduct
    | .Cosine => r.Cosine

/-- Axis order of the correlation heatmap in `app.py` lines 121-122. -/
def metricNames : List MetricName :=
  [MetricName.Dotproduct, MetricName.Cosine, MetricName.Distance]

/-- The correlation table of `app.py` line 115: pairwise Pearson correlation
between the three float metric columns of the neighbor result set. -/
def correlation_df (l : List NeighborRecord) : List (List ℚ) :=
  metricNames.map fun m1 =>
    metricNames.map fun m2 => pearsonQ (metricColumn m1 l) (metricColumn m2 l)

/-- The `get_neighbors` boundary operation of §6: the neighbor records of the
query plus the correlation table computed on that result set (`app.py` lines
92-115; the ranking metric is the fixed `metric = "Distance"` of line 52). -/
def get_neighbors (title : String) (sims : SimilarityPairs) (items : List Item) :
    Except QueryError (List NeighborRecord × List (List ℚ)) :=
  match return_matches title sims items MetricName.Distance with
  | .error e => .error e
  | .ok l => .ok (l, correlation_df l)

/-- C8: for a successful neighbor query, the returned correlation table is
the pairwise Pearson table computed on exactly the `n - 1` returned records
(each metric column has length `n - 1`), not on the full precomputed
matrices. -/
theorem correlation_on_query_result (title : String) (sims : SimilarityPairs)
    (items : List Item) (q : Item) (l : List NeighborRecord)
    (hq : items.find? (fun it => it.movie_title == title) = some q)
    (hnd : (items.map Item.index).Nodup)
    (h : return_matches title sims items MetricName.Distance = .ok l) :
    get_neighbors title sims items = .ok (l, correlation_df l) ∧
    (∀ m, (metricColumn m l).length = items.length - 1) ∧
    correlation_df l = metricNames.map (fun m1 =>
      metricNames.map fun m2 => pearsonQ (metricColumn m1 l) (metricColumn m2 l)) := by
  refine ⟨?_, ?_, rfl⟩
  · unfold get_neighbors
    rw [h]
  · intro m
    unfold return_matches at h
    rw [hq] at h
    simp only [Except.ok.injEq] at h
    subst h
    rw [metricColumn, List.length_map, (perm_sortLe _ _).length_eq,
      List.length_map]
    exact filter_ne_index_length items q (List.mem_of_find?_eq_some hq) hnd

/-- Witness for C8 at the three-movie demo dataset, query "A". -/
theorem correlation_on_query_result_witness :
    get_neighbors "A" demoSims demoItems
      = .ok (((return_matches "A" demoSims demoItems
            MetricName.Distance).toOption.getD []),
          correlation_df ((return_matches "A" demoSims demoItems
            MetricName.Distance).toOption.getD [])) ∧
    (∀ m, (metricColumn m ((return_matches "A" demoSims demoItems
        MetricName.Distance).toOption.getD [])).length = demoItems.length - 1) ∧
    correlation_df ((return_matches "A" demoSims demoItems
        MetricName.Distance).toOption.getD [])
      = metricNames.map (fun m1 => metricNames.map fun m2 =>
          pearsonQ
            (metricColumn m1 ((return_matches "A" demoSims demoItems
              MetricName.Distance).toOption.getD []))
            (metricColumn m2 ((return_matches "A" demoSims demoItems
              MetricName.Distance).toOption.getD []))) := by
  have hq : demoItems.find? (fun it => it.movie_title == "A") = some demoItemA :=
    rfl
  have h : return_matches "A" demoSims demoItems MetricName.Distance
      = Except.ok ((return_matches "A" demoSims demoItems
          MetricName.Distance).toOption.getD []) := rfl
  exact correlation_on_query_result "A" demoSims demoItems demoItemA _ hq
    (by decide) h

/-- Errors surfaced by the `/visualize` route (`app.py` lines 85-97):
HTTP 400 when the title is missing, `ItemNotFound` (§4.2, §7)
when it does not resolve. -/
inductive ApiError
  | missingTitle
  | itemNotFound
deriving DecidableEq

/-- Whether an `Except` result is an error. -/
def isError {ε α : Type} : Except ε α → Bool
  | .error _ => true
  | .ok _ => false

/-- The `/visualize` route handler `make_plots` (`app.py` lines 83-132):
returns HTTP 400 when the posted title is absent or empty (Python's
`if not movie_title`); otherwise delegates to the neighbor query, whose
`ItemNotFound` failure (modelled from the spec, §4.2) is surfaced as a
structured error rather than a crash. -/
def make_plots (movie_title : Option String) (sims : SimilarityPairs)
    (items : List Item) :
    Except ApiError (List NeighborRecord × List (List ℚ)) :=
  match movie_title with
  | none => .error .missingTitle
  | some t =>
    if t = "" then .error .missingTitle
    else
      match get_neighbors t sims items with
      | .error _ => .error .itemNotFound
      | .ok r => .ok r

/-- C6: a request whose title is absent, empty, or does not resolve to any
item fails with a structured error value — no partial result, no crash. -/
theorem make_plots_error_cases (sims : SimilarityPairs) (items : List Item)
    (mt : Option String)
    (h : mt = none ∨ mt = some "" ∨
      ∃ t, mt = some t ∧ items.find? (fun it => it.movie_title == t) = none) :
    isError (make_plots mt sims items) = true := by
  rcases h with rfl | rfl | ⟨t, rfl, ht⟩
  · rfl
  · rfl
  · by_cases he : t = ""
    · simp [make_plots, he, isError]
    · simp [make_plots, get_neighbors, return_matches, he, ht, isError]

/-- Witness for C6 at an absent title. -/
theorem make_plots_error_cases_witness :
    isError (make_plots none demoSims demoItems) = true :=
  make_plots_error_cases demoSims demoItems none (Or.inl rfl)

/-- One folding step of the comma splitter: a comma opens a new group, any
other character is prepended to the current group. -/
def splitStep (c : Char) (acc : List (List Char)) : List (List Char) :=
  if c = ',' then [] :: acc
  else
    match acc with
    | [] => [[c]]
    | g :: gs => (c :: g) :: gs

/-- Split a string at commas, as `pl.col("genre").str.split(",")` does in
`app.py` line 41 (and Python's `str.split(",")`): the empty string yields
`[""]`, and every comma separates two (possibly empty) fields. -/
def str_split (s : String) : List String :=
  (s.data.foldr splitStep [[]]).map fun cs => String.mk cs

/-- One 2D projection point of §3: reduced coordinates joined with the
item's metadata. -/
structure ProjectionPoint where
  id : ℕ
  title : String
  genre : String
  x : ℚ
  y : ℚ
deriving DecidableEq

/-- The genre-focused grouping produced for the plotting boundary (§4.4):
the matching points, the remaining points, and the focal point chosen for
visual emphasis. -/
structure GenreGrouping where
  matched : List ProjectionPoint
  others : List ProjectionPoint
  focal : Option ProjectionPoint
deriving DecidableEq

/-- Modelled from the spec: `make_umap_plots.genre_scatter_plot` (called at
`app.py` line 157), the Genre Focus View `focus` of §4.4: partition the
projection points into the points whose comma-delimited `genre` field
contains the label versus the rest.  The source picks a random focal point
among the matches (`app.py` comment, line 155); the spec flags that choice as
ambiguous and suggests a deterministic first-match rule, which is what is
modelled here — on an empty match set every selection rule yields no focal
point. -/
def genre_scatter_plot (pts : List ProjectionPoint) (genre : String) :
    GenreGrouping where
  matched := pts.filter fun p => (str_split p.genre).contains genre
  others := pts.filter fun p => !(str_split p.genre).contains genre
  focal := (pts.filter fun p => (str_split p.genre).contains genre).head?

/-- C7: when no projection point carries the requested genre label, the genre
focus operation returns an explicitly empty match group — no matches, no
focal point, every point in the "other" group — rather than failing. -/
theorem genre_focus_no_match (pts : List ProjectionPoint) (genre : String)
    (h : ∀ p ∈ pts, ¬ genre ∈ str_split p.genre) :
    (genre_scatter_plot pts genre).matched = [] ∧
    (genre_scatter_plot pts genre).focal = none ∧
    (genre_scatter_plot pts genre).others = pts := by
  have hf : (pts.filter fun p => (str_split p.genre).contains genre) = [] := by
    apply List.filter_eq_nil_iff.mpr
    intro p hp
    simpa [List.contains] using fun hm => h p hp (List.elem_iff.mp hm)
  refine ⟨hf, ?_, ?_⟩
  · simp only [genre_scatter_plot, hf, List.head?]
  · apply List.filter_eq_self.mpr
    intro p hp
    simpa [List.contains] using fun hm => h p hp (List.elem_iff.mp hm)

/-- Witness for C7: a one-point projection queried with an unknown genre. -/
theorem genre_focus_no_match_witness :
    (genre_scatter_plot [⟨0, "A", "Action,Drama", 0, 0⟩] "Comedy").matched = [] ∧
    (genre_scatter_plot [⟨0, "A", "Action,Drama", 0, 0⟩] "Comedy").focal = none ∧
    (genre_scatter_plot [⟨0, "A", "Action,Drama", 0, 0⟩] "Comedy").others
      = [⟨0, "A", "Action,Drama", 0, 0⟩] :=
  genre_focus_no_match [⟨0, "A", "Action,Drama", 0, 0⟩] "Comedy" (by decide)

/-- Code-point lexicographic order on character lists, the order in which
the genre labels are sorted. -/
def lexLe : List Char → List Char → Bool
  | [], _ => true
  | _ :: _, [] => false
  | a :: as, b :: bs =>
    if a.toNat < b.toNat then true
    else if b.toNat < a.toNat then false
    else lexLe as bs

/-- Code-point lexicographic order on strings. -/
def strLe (s t : String) : Bool := lexLe s.data t.data

theorem lexLe_trans : ∀ a b c : List Char,
    lexLe a b = true → lexLe b c = true → lexLe a c = true
  | [], _, _, _, _ => rfl
  | x :: xs, [], _, h1, _ => by simp [lexLe] at h1
  | _ :: _, _ :: _, [], _, h2 => by simp [lexLe] at h2
  | x :: xs, y :: ys, z :: zs, h1, h2 => by
    simp only [lexLe] at h1 h2 ⊢
    by_cases hxy : x.toNat < y.toNat
    · by_cases hyz : y.toNat < z.toNat
      · rw [if_pos (lt_trans hxy hyz)]
      · by_cases hzy : z.toNat < y.toNat
        · rw [if_neg hyz, if_pos hzy] at h2
          exact absurd h2 (by simp)
        · rw [if_pos (by omega : x.toNat < z.toNat)]
    · by_cases hyx : y.toNat < x.toNat
      · rw [if_neg hxy, if_pos hyx] at h1
        exact absurd h1 (by simp)
      · rw [if_neg hxy, if_neg hyx] at h1
        by_cases hyz : y.toNat < z.toNat
        · rw [if_pos (by omega : x.toNat < z.toNat)]
        · by_cases hzy : z.toNat < y.toNat
          · rw [if_neg hyz, if_pos hzy] at h2
            exact absurd h2 (by simp)
          · rw [if_neg hyz, if_neg hzy] at h2
            rw [if_neg (by omega : ¬ x.toNat < z.toNat),
              if_neg (by omega : ¬ z.toNat < x.toNat)]
            exact lexLe_trans xs ys zs h1 h2

theorem lexLe_total : ∀ a b : List Char, (lexLe a b || lexLe b a) = true
  | [], _ => by simp [lexLe]
  | _ :: _, [] => by simp [lexLe]
  | x :: xs, y :: ys => by
    simp only [lexLe]
    by_cases hxy : x.toNat < y.toNat
    · rw [if_pos hxy]
      simp
    · by_cases hyx : y.toNat < x.toNat
      · rw [if_neg hxy, if_pos hyx, if_pos hyx]
        simp
      · rw [if_neg hxy, if_neg hyx, if_neg hyx, if_neg hxy]
        exact lexLe_total xs ys

theorem strLe_trans (a b c : String) (h1 : strLe a b = true)
    (h2 : strLe b c = true) : strLe a c = true :=
  lexLe_trans a.data b.data c.data h1 h2

theorem strLe_total (a b : String) : (strLe a b || strLe b a) = true :=
  lexLe_total a.data b.data

/-- The genre selection list of `app.py` lines 39-48: split each item's
comma-delimited `genre` field, flatten, deduplicate, and sort in ascending
alphabetical (code-point) order. -/
def genres_list (items : List Item) : List String :=
  sortLe strLe ((items.map fun it => str_split it.genre).flatten).dedup

/-- C10: the genre selection list holds exactly the distinct labels obtained
by splitting each item's comma-delimited genre field — each label exactly
once (`Nodup`), membership precisely the split labels, sorted in ascending
alphabetical order. -/
theorem genres_list_spec (items : List Item) :
    (genres_list items).Pairwise (fun a b => strLe a b = true) ∧
    (genres_list items).Nodup ∧
    ∀ g, g ∈ genres_list items ↔ ∃ it ∈ items, g ∈ str_split it.genre := by
  refine ⟨pairwise_sortLe strLe strLe_trans strLe_total _, ?_, ?_⟩
  · exact ((perm_sortLe _ _).nodup_iff).mpr (List.nodup_dedup _)
  · intro g
    rw [genres_list, (perm_sortLe _ _).mem_iff, List.mem_dedup, List.mem_flatten]
    constructor
    · rintro ⟨l, hl, hg⟩
      obtain ⟨it, hit, rfl⟩ := List.mem_map.mp hl
      exact ⟨it, hit, hg⟩
    · rintro ⟨it, hit, hg⟩
      exact ⟨str_split it.genre, List.mem_map_of_mem _ hit, hg⟩
